import Mathlib

/-!
Verification of the session-correlated SSE transport bridge
(`fixed_sse_server.py`): the shared-path dispatch handler
`handle_messages`, the application wiring `create_starlette_app` /
`ServiceNowSSEMCP.start`, and the spec-described outbound pump loop.

Shallow embedding conventions:
- a capability descriptor's three fields are opaque strings, passed
  through verbatim as in the source;
- the outcome of `mcp_server._list_tools_impl()` (an external RPC-engine
  call) is a parameter of type `Except String (List Tool)`: `ok` is a
  normal return, `error e` is a raised exception with message `e`;
- the session registry owned by the SSE transport collaborator is a
  parameter `List String` of live session ids;
- a Python `JSONResponse` is a status code plus a `Body`.
-/

/-- A capability descriptor as supplied by the RPC engine
(`mcp.types.Tool`): `name`, `description`, `inputSchema`, all opaque to
the bridge. -/
structure Tool where
  name : String
  description : String
  inputSchema : String
deriving DecidableEq

/-- The per-tool dictionary built by the GET branch of `handle_messages`
(source lines 56-63): exactly the keys `name`, `description`,
`inputSchema`. -/
structure ToolDescriptor where
  name : String
  description : String
  inputSchema : String
deriving DecidableEq

/-- The dictionary comprehension body at source lines 57-61: each field is
copied unmodified from the engine's tool. -/
def toolToDescriptor (t : Tool) : ToolDescriptor :=
  ⟨t.name, t.description, t.inputSchema⟩

/-- The JSON body of a response from the dispatch handler: an error object
with a single message field, the array of tool descriptors, or the
transport acknowledgement of a delivered message. -/
inductive Body where
  | errorObj : String → Body
  | toolArray : List ToolDescriptor → Body
  | ack : Body
deriving DecidableEq

/-- A `JSONResponse`: HTTP status code plus JSON body. -/
structure HttpResponse where
  status : Nat
  body : Body
deriving DecidableEq

/-- An incoming request as seen by `handle_messages`: its HTTP method and
the value of `request.query_params.get("session_id")` (`none` when the
parameter is absent, `some ""` when present but empty). -/
structure Request where
  method : String
  sessionId : Option String
deriving DecidableEq

/-- Python truthiness test `not session_id` at source line 47: true for
`None` and for the empty string. -/
def pyFalsy : Option String → Bool
  | none => true
  | some s => decide (s = "")

/-- Modelled from the spec: `SseServerTransport.handle_post_message`, the
Message Delivery sub-operation (spec section 4.3), is provided by the
external SSE transport collaborator and its code is not under `src/`.
Per the spec: an absent session id fails with MissingParameter (4xx,
checked before any lookup); a session id not present in the registry
fails with SessionNotFound (404-class); otherwise the message is enqueued
on the session's inbound channel and an acknowledgement is returned. -/
def handle_post_message (registry : List String) (sessionId : Option String) :
    HttpResponse :=
  match sessionId with
  | none => ⟨400, Body.errorObj "session_id is required"⟩
  | some sid =>
      if sid ∈ registry then ⟨202, Body.ack⟩
      else ⟨404, Body.errorObj "Could not find session"⟩

/-- The shared-path dispatch handler `handle_messages` (source lines
42-79). `registry` is the transport collaborator's live-session map
(consulted only via `handle_post_message`); `list_tools` is the outcome
of `mcp_server._list_tools_impl()`. The GET branch checks the session id
for Python-falsiness, then renders the tool list or catches the raised
exception; the POST branch delegates to the SSE transport; any other
method gets a 405 naming the method. -/
def handle_messages (registry : List String)
    (list_tools : Except String (List Tool)) (request : Request) :
    HttpResponse :=
  if request.method = "GET" then
    if pyFalsy request.sessionId then
      ⟨400, Body.errorObj "session_id is required"⟩
    else
      match list_tools with
      | Except.ok tools => ⟨200, Body.toolArray (tools.map toolToDescriptor)⟩
      | Except.error e => ⟨500, Body.errorObj ("Failed to list tools: " ++ e)⟩
  else if request.method = "POST" then
    handle_post_message registry request.sessionId
  else
    ⟨405, Body.errorObj ("Method " ++ request.method ++ " not allowed")⟩

/-- A Starlette `Route` as declared at source lines 84-85: a path and the
optional explicit method list (`none` when the `methods` argument is
omitted, as for `/sse`). -/
structure RouteSpec where
  path : String
  methods : Option (List String)
deriving DecidableEq

/-- The Starlette application object: its `debug` flag and route table. -/
structure StarletteApp where
  debug : Bool
  routes : List RouteSpec
deriving DecidableEq

/-- `create_starlette_app` (source lines 25-87): builds the application
with the given debug flag and the two routes. -/
def create_starlette_app (debug : Bool) : StarletteApp :=
  ⟨debug,
   [⟨"/sse", none⟩, ⟨"/messages/", some ["GET", "POST"]⟩]⟩

/-- The configuration handed to `uvicorn.run` by `ServiceNowSSEMCP.start`:
bind host, port, and the constructed application. -/
structure StartConfig where
  host : String
  port : Nat
  app : StarletteApp
deriving DecidableEq

namespace ServiceNowSSEMCP

/-- `ServiceNowSSEMCP.start` (source lines 99-117): takes only `host` and
`port` and constructs the application with `create_starlette_app(self,
debug=True)` — the debug flag is hard-coded to `True` at source line 108. -/
def start (host : String) (port : Nat) : StartConfig :=
  ⟨host, port, create_starlette_app true⟩

end ServiceNowSSEMCP

/-- A protocol message on a session's outbound channel, opaque to the
pump. -/
abbrev Msg := String

/-- Enqueue onto a session's outbound channel (FIFO queue: new messages go
to the back). -/
def enqueue (q : List Msg) (m : Msg) : List Msg :=
  q ++ [m]

/-- Modelled from the spec: the EventStreamEndpoint pump loop (spec
section 4.2), implemented inside the SSE transport collaborator invoked by
`handle_sse` (source lines 29-40) and not present under `src/`. Per the
spec it forwards every message appearing on the session's outbound
channel to the stream, front of the queue first, appending each to what
the stream has observed so far. -/
def pumpOutbound (stream : List Msg) (queue : List Msg) : List Msg :=
  match queue with
  | [] => stream
  | m :: rest => pumpOutbound (stream ++ [m]) rest

/-- The pump writes exactly the queued messages after whatever the stream
already observed. -/
theorem pumpOutbound_eq_append (queue : List Msg) :
    ∀ stream : List Msg, pumpOutbound stream queue = stream ++ queue := by
  induction queue with
  | nil => intro stream; simp [pumpOutbound]
  | cons m rest ih =>
      intro stream
      simp [pumpOutbound, ih (stream ++ [m])]

/-- Claim C1: as stated this is false on the code, and this counterexample
refutes it: with an empty registry (so the session id "unknown-id" is not
present in it), a GET dispatch request carrying that session id gets the
200 capability listing, not a 4xx SessionNotFound — the GET branch of
`handle_messages` never looks up the session. -/
theorem unknown_session_get_counterexample :
    (handle_messages [] (Except.ok []) ⟨"GET", some "unknown-id"⟩).status = 200 ∧
    handle_messages [] (Except.ok []) ⟨"GET", some "unknown-id"⟩ =
      ⟨200, Body.toolArray []⟩ := by
  exact ⟨rfl, rfl⟩

/-- Claim C1 (amended): a POST dispatch request whose session id is present
but not in the registry gets the 404 SessionNotFound response, while the
GET branch performs no session lookup at all: its response for the same
unknown, non-empty session id is the one it would give over any registry
whatsoever (here the empty one). -/
theorem unknown_session_dispatch (registry : List String)
    (list_tools : Except String (List Tool)) (sid : String)
    (hmem : sid ∉ registry) :
    handle_messages registry list_tools ⟨"POST", some sid⟩ =
      ⟨404, Body.errorObj "Could not find session"⟩ ∧
    handle_messages registry list_tools ⟨"GET", some sid⟩ =
      handle_messages [] list_tools ⟨"GET", some sid⟩ := by
  refine ⟨?_, rfl⟩
  simp [handle_messages, handle_post_message, hmem]

/-- Claim C1 (amended), witness: the session id "s1" is absent from the
registry holding only "other". -/
theorem unknown_session_dispatch_witness :
    handle_messages ["other"] (Except.ok []) ⟨"POST", some "s1"⟩ =
      ⟨404, Body.errorObj "Could not find session"⟩ ∧
    handle_messages ["other"] (Except.ok []) ⟨"GET", some "s1"⟩ =
      handle_messages [] (Except.ok []) ⟨"GET", some "s1"⟩ :=
  unknown_session_dispatch ["other"] (Except.ok []) "s1" (by decide)

/-- Claim C2: a dispatch request that omits the `session_id` query
parameter gets the 400 MissingParameter response on both GET and POST, and
the response is independent of the registry and of the RPC engine's tool
list — so no session lookup and no other processing happens before the
presence check. -/
theorem missing_session_id_dispatch (r r2 : List String)
    (lt lt2 : Except String (List Tool)) (m : String)
    (hm : m = "GET" ∨ m = "POST") :
    handle_messages r lt ⟨m, none⟩ =
      ⟨400, Body.errorObj "session_id is required"⟩ ∧
    handle_messages r2 lt2 ⟨m, none⟩ = handle_messages r lt ⟨m, none⟩ := by
  rcases hm with h | h <;> subst h <;> exact ⟨rfl, rfl⟩

/-- Claim C2, witness: GET with no session id, over a nonempty registry
and a failing engine on one side to exhibit the independence. -/
theorem missing_session_id_dispatch_witness :
    handle_messages [] (Except.ok []) ⟨"GET", none⟩ =
      ⟨400, Body.errorObj "session_id is required"⟩ ∧
    handle_messages ["s1"] (Except.error "boom") ⟨"GET", none⟩ =
      handle_messages [] (Except.ok []) ⟨"GET", none⟩ :=
  missing_session_id_dispatch [] ["s1"] (Except.ok []) (Except.error "boom")
    "GET" (Or.inl rfl)

/-- Claim C3: on a GET request with a (non-empty) session id, when
retrieving the tool list raises an exception with message `e`, the handler
catches it and returns the 500 listing-failure response whose body is the
literal prefix "Failed to list tools: " followed by `e` — so the body
contains the underlying message, and since `handle_messages` is a total
function of the retrieval outcome, no exception propagates out of the
handler. -/
theorem get_listing_failure_caught (registry : List String) (sid e : String)
    (hsid : sid ≠ "") :
    handle_messages registry (Except.error e) ⟨"GET", some sid⟩ =
      ⟨500, Body.errorObj ("Failed to list tools: " ++ e)⟩ := by
  simp [handle_messages, pyFalsy, hsid]

/-- Claim C3, witness: a concrete raised message "boom". -/
theorem get_listing_failure_caught_witness :
    handle_messages [] (Except.error "boom") ⟨"GET", some "s1"⟩ =
      ⟨500, Body.errorObj ("Failed to list tools: " ++ "boom")⟩ :=
  get_listing_failure_caught [] "s1" "boom" (by decide)

/-- Claim C4: on a successful GET listing, the response is 200 and its
body is exactly the engine's tool list mapped elementwise (hence one
descriptor per tool, in the engine's order) through `toolToDescriptor`,
which copies `name`, `description` and `inputSchema` unmodified and
exposes no other field. -/
theorem get_listing_success (registry : List String) (sid : String)
    (tools : List Tool) (hsid : sid ≠ "") :
    handle_messages registry (Except.ok tools) ⟨"GET", some sid⟩ =
      ⟨200, Body.toolArray
        (tools.map (fun t => ⟨t.name, t.description, t.inputSchema⟩))⟩ := by
  simp [handle_messages, pyFalsy, hsid, toolToDescriptor]

/-- Claim C4, witness: two concrete tools come back in order with all
three fields verbatim. -/
theorem get_listing_success_witness :
    handle_messages []
        (Except.ok [Tool.mk "a" "da" "sa", Tool.mk "b" "db" "sb"])
        ⟨"GET", some "s1"⟩ =
      ⟨200, Body.toolArray
        ([Tool.mk "a" "da" "sa", Tool.mk "b" "db" "sb"].map
          (fun t => ⟨t.name, t.description, t.inputSchema⟩))⟩ :=
  get_listing_success [] "s1" [Tool.mk "a" "da" "sa", Tool.mk "b" "db" "sb"]
    (by decide)

/-- Claim C5: a request to the shared delivery path whose method is
neither GET nor POST gets status 405 with an error body naming the
rejected method (the body is the literal "Method ", then the method, then
" not allowed"). -/
theorem method_not_allowed_dispatch (registry : List String)
    (list_tools : Except String (List Tool)) (m : String)
    (sid : Option String) (hg : m ≠ "GET") (hp : m ≠ "POST") :
    handle_messages registry list_tools ⟨m, sid⟩ =
      ⟨405, Body.errorObj ("Method " ++ m ++ " not allowed")⟩ := by
  simp [handle_messages, hg, hp]

/-- Claim C5, witness: a DELETE request is rejected with a 405 naming
DELETE. -/
theorem method_not_allowed_dispatch_witness :
    handle_messages [] (Except.ok []) ⟨"DELETE", none⟩ =
      ⟨405, Body.errorObj ("Method " ++ "DELETE" ++ " not allowed")⟩ :=
  method_not_allowed_dispatch [] (Except.ok []) "DELETE" none (by decide)
    (by decide)

/-- Claim C6: as stated this is false on the code, and this counterexample
refutes it: `ServiceNowSSEMCP.start` takes only host and port — it offers
no way to enable or disable debug — and the application it constructs
(here at host "0.0.0.0", port 8080) always has `debug = true`, hard-coded
at source line 108; so a server started without enabling debug still runs
in debug mode. -/
theorem start_debug_counterexample :
    (ServiceNowSSEMCP.start "0.0.0.0" 8080).app.debug = true := rfl

/-- Claim C6 (amended): `create_starlette_app`'s configuration is the
debug flag (passed through to the application unchanged) plus the fixed
route table, and `ServiceNowSSEMCP.start`'s configuration is host and port
only: it always builds the application with debug hard-coded to `True`,
so every started server runs in debug mode. -/
theorem start_always_debug (host : String) (port : Nat) (d : Bool) :
    (create_starlette_app d).debug = d ∧
    (ServiceNowSSEMCP.start host port).host = host ∧
    (ServiceNowSSEMCP.start host port).port = port ∧
    (ServiceNowSSEMCP.start host port).app = create_starlette_app true := by
  exact ⟨rfl, rfl, rfl, rfl⟩

/-- Claim C7: messages enqueued on a session's outbound channel in the
order m1, m2, m3 are observed on the stream, starting from an empty
observation, in exactly that order. -/
theorem outbound_fifo (m1 m2 m3 : Msg) :
    pumpOutbound [] (enqueue (enqueue (enqueue [] m1) m2) m3) =
      [m1, m2, m3] := by
  simp [pumpOutbound_eq_append, enqueue]

/-- Claim C8: the GET branch's output is the same for any two non-empty
session ids and any two registries, given the same tool-list outcome from
the engine: it depends only on that outcome and on the non-emptiness of
the session id, and consults no session registry. -/
theorem get_session_id_independent (s1 s2 : String) (r1 r2 : List String)
    (list_tools : Except String (List Tool)) (h1 : s1 ≠ "") (h2 : s2 ≠ "") :
    handle_messages r1 list_tools ⟨"GET", some s1⟩ =
      handle_messages r2 list_tools ⟨"GET", some s2⟩ := by
  simp [handle_messages, pyFalsy, h1, h2]

/-- Claim C8, witness: two different session ids over two different
registries give the same response. -/
theorem get_session_id_independent_witness :
    handle_messages [] (Except.ok []) ⟨"GET", some "a"⟩ =
      handle_messages ["a"] (Except.ok []) ⟨"GET", some "b"⟩ :=
  get_session_id_independent "a" "b" [] ["a"] (Except.ok []) (by decide)
    (by decide)

/-- Claim C9: a GET request whose `session_id` parameter is present but
empty gets the 400 MissingParameter response, identical to the response
for an absent parameter: Python's truthiness test treats "" as missing. -/
theorem get_empty_session_id (registry : List String)
    (list_tools : Except String (List Tool)) :
    handle_messages registry list_tools ⟨"GET", some ""⟩ =
      ⟨400, Body.errorObj "session_id is required"⟩ ∧
    handle_messages registry list_tools ⟨"GET", some ""⟩ =
      handle_messages registry list_tools ⟨"GET", none⟩ := by
  exact ⟨rfl, rfl⟩

/-- Claim C10: the GET branch is total — `handle_messages` is a total Lean
function, mirroring that the handler raises nothing once the parameter
read and response construction succeed — and every GET response is one of
exactly three shapes: the 400 missing-parameter body, a 500
listing-failure body, or a 200 descriptor array. -/
theorem get_branch_total (registry : List String)
    (list_tools : Except String (List Tool)) (sid : Option String) :
    handle_messages registry list_tools ⟨"GET", sid⟩ =
        ⟨400, Body.errorObj "session_id is required"⟩ ∨
    (∃ e, handle_messages registry list_tools ⟨"GET", sid⟩ =
        ⟨500, Body.errorObj ("Failed to list tools: " ++ e)⟩) ∨
    (∃ ts, handle_messages registry list_tools ⟨"GET", sid⟩ =
        ⟨200, Body.toolArray ts⟩) := by
  by_cases hf : pyFalsy sid = true
  · left
    simp [handle_messages, hf]
  · cases list_tools with
    | ok tools =>
        right; right
        exact ⟨tools.map toolToDescriptor, by simp [handle_messages, hf]⟩
    | error e =>
        right; left
        exact ⟨e, by simp [handle_messages, hf]⟩
